import Mathlib

/-!
Verification of the motor-controller command/control layer
(`src/motor_control.rs`): control-mode dispatch and numeric encoding
(`set` / `follow` / `neutral_output`), device addressing
(`TalonSRX::new` / `VictorSPX::new`), fault bit-field decoding
(`Faults` / `StickyFaults`), the Talon current-limit configuration
surface, and the motion-profile buffer protocol.

Modelling conventions:
- Rust `i32` values are modelled as `ℤ`; `u32` values as `ℕ`;
  `f64` values as `ℚ` (every demand value of interest is exactly
  representable, and the claims are about real-number semantics).
- Rust casts are explicit functions: `i32AsU32` is the
  two's-complement reinterpretation `x as u32`, `f64AsU32` is the
  Rust saturating-truncating cast `x as u32`.
- The FFI boundary (`c_MotController_*`) is opaque transport: a call
  into it is modelled as the value of an inductive type recording the
  entry point and the encoded arguments that cross the boundary.
-/

/-- Modelled from the spec: the closed set of control modes
(`ctre_sys::mot::ControlMode`, re-exported by the crate; the enum
declaration itself is in the FFI crate). -/
inductive ControlMode where
  | PercentOutput
  | Position
  | Velocity
  | Current
  | Follower
  | MotionProfile
  | MotionMagic
  | MotionProfileArc
  | Disabled
deriving DecidableEq, Repr

/-- Modelled from the spec: the demand-type enum
(`ctre_sys::mot::DemandType`). -/
inductive DemandType where
  | Neutral
  | AuxPID
  | ArbitraryFeedForward
deriving DecidableEq, Repr

/-- Modelled from the spec: the follower-type enum
(`ctre_sys::mot::FollowerType`). -/
inductive FollowerType where
  | PercentOutput
  | AuxOutput1
deriving DecidableEq, Repr

/-- Modelled from the spec: one request crossing the DeviceHandle
boundary from the Control Dispatcher.  `set4` records a call to
`c_MotController_Set_4(handle, mode, demand0, demand1, demand1Type)`;
`setDemand` records a call to
`c_MotController_SetDemand(handle, mode, demand0, demand1)`.
The handle is omitted: it identifies the device, not the encoding. -/
inductive FfiCall where
  | set4 (mode : ControlMode) (demand0 : ℚ) (demand1 : ℚ) (demand1Type : DemandType)
  | setDemand (mode : ControlMode) (demand0 : ℚ) (demand1 : ℚ)
deriving DecidableEq, Repr

/-- Rust `x as u32` on an `i32` value: two's-complement
reinterpretation, i.e. reduction modulo `2^32`. -/
def i32AsU32 (x : ℤ) : ℕ :=
  (x % (2 : ℤ) ^ 32).toNat

/-- Rust `x as u32` on an `f64` value: truncate toward zero and
saturate to `[0, 2^32 - 1]`.  (For `x < 1` the floor is at most `0`,
so `Int.toNat` yields the saturated value `0`.) -/
def f64AsU32 (x : ℚ) : ℕ :=
  min (⌊x⌋).toNat (2 ^ 32 - 1)

/-- The Control Dispatcher `BaseMotorController::set`
(src/motor_control.rs lines 148-193), as a function from the caller's
base id and the four arguments to the FFI request it issues.

Source, Follower arm:
`let work = if 0.0 <= demand0 && demand0 <= 62.0 {
   ((self.get_base_id() as u32 >> 16) << 8) | (demand0 as u32)
 } else { demand0 as u32 };`
then `c_MotController_Set_4(handle, mode, work as f64, demand1,
demand1_type)`.  (`work < 2^32 ≤ 2^53`, so `work as f64` is exact and
the `ℕ → ℚ` coercion models it.)
Current arm: `c_MotController_SetDemand(handle, mode,
(1000.0 * demand0) as _, 0)`.
Disabled arm: `c_MotController_SetDemand(handle, mode, 0, 0)`.
All remaining modes pass the demands through verbatim to `Set_4`. -/
def BaseMotorController.set : ℤ → ControlMode → ℚ → DemandType → ℚ → FfiCall
  | baseId, ControlMode.Follower, demand0, demand1Type, demand1 =>
      let work : ℕ :=
        if 0 ≤ demand0 ∧ demand0 ≤ 62 then
          ((i32AsU32 baseId >>> 16) <<< 8) ||| f64AsU32 demand0
        else
          f64AsU32 demand0
      FfiCall.set4 ControlMode.Follower (work : ℚ) demand1 demand1Type
  | _, ControlMode.Current, demand0, _, _ =>
      FfiCall.setDemand ControlMode.Current (1000 * demand0) 0
  | _, ControlMode.Disabled, _, _, _ =>
      FfiCall.setDemand ControlMode.Disabled 0 0
  | _, m, demand0, demand1Type, demand1 =>
      FfiCall.set4 m demand0 demand1 demand1Type

/-- `BaseMotorController::neutral_output` (src/motor_control.rs lines
196-198): `self.set(ControlMode::Disabled, 0.0, DemandType::Neutral, 0.0)`. -/
def BaseMotorController.neutral_output (baseId : ℤ) : FfiCall :=
  BaseMotorController.set baseId ControlMode.Disabled 0 DemandType.Neutral 0

/-- The 24-bit repacked follower id computed by
`BaseMotorController::follow` (src/motor_control.rs line 1005):
`((base_id >> 0x10) << 8) | (base_id & 0xFF)` over `i32`
(arithmetic shift; no overflow is possible since
`|base_id >> 16| ≤ 2^15`). -/
def followerId24 (baseId : ℤ) : ℤ :=
  Int.lor ((baseId >>> (16 : ℤ)) <<< (8 : ℤ)) (Int.land baseId 255)

/-- `BaseMotorController::follow` (src/motor_control.rs lines
1003-1015), as a function from the follower's own base id, the
master's base id, and the follower type to the FFI request issued. -/
def BaseMotorController.follow (selfBaseId : ℤ) (masterBaseId : ℤ) : FollowerType → FfiCall
  | FollowerType.PercentOutput =>
      BaseMotorController.set selfBaseId ControlMode.Follower ((followerId24 masterBaseId : ℤ) : ℚ)
        DemandType.Neutral 0
  | FollowerType.AuxOutput1 =>
      BaseMotorController.set selfBaseId ControlMode.Follower ((followerId24 masterBaseId : ℤ) : ℚ)
        DemandType.AuxPID 0

/-- The demand type `follow` selects for each follower type
(src/motor_control.rs lines 1007-1014). -/
def followerDemandType : FollowerType → DemandType
  | FollowerType.PercentOutput => DemandType.Neutral
  | FollowerType.AuxOutput1 => DemandType.AuxPID

/-- `TalonSRX::new` (src/motor_control.rs lines 1080-1084): the arb id
stored in the device object is `device_number | 0x02040000`. -/
def talonSRXArbId (deviceNumber : ℤ) : ℤ :=
  Int.lor deviceNumber 0x02040000

/-- `VictorSPX::new` (src/motor_control.rs lines 1340-1344): the arb id
stored in the device object is `device_number | 0x01040000`. -/
def victorSPXArbId (deviceNumber : ℤ) : ℤ :=
  Int.lor deviceNumber 0x01040000

/-- Modelled from the spec: extraction of the low device-number bits
of a composite address (the device number occupies the low bits; the
code itself extracts low bits with `& 0xFF` in `follow`). -/
def deviceNumberBits (arbId : ℤ) : ℤ :=
  Int.land arbId 255

/-- Modelled from the spec: extraction of the high family bits of a
composite address (the family tag occupies bits 16 and above; the code
itself isolates them with `>> 16` in `set` and `follow`). -/
def familyBits (arbId : ℤ) : ℤ :=
  (arbId >>> (16 : ℤ)) <<< (16 : ℤ)

/-- `Faults` (src/motor_control.rs lines 18-58): a 32-bit flag field
cached as an `i32`; each named accessor masks a single bit. -/
structure Faults where
  raw : ℤ
deriving DecidableEq, Repr

def Faults.under_voltage (f : Faults) : Bool :=
  Int.land f.raw (1 <<< (0 : ℤ)) ≠ 0

def Faults.forward_limit_switch (f : Faults) : Bool :=
  Int.land f.raw (1 <<< (1 : ℤ)) ≠ 0

def Faults.reverse_limit_switch (f : Faults) : Bool :=
  Int.land f.raw (1 <<< (2 : ℤ)) ≠ 0

def Faults.forward_soft_limit (f : Faults) : Bool :=
  Int.land f.raw (1 <<< (3 : ℤ)) ≠ 0

def Faults.reverse_soft_limit (f : Faults) : Bool :=
  Int.land f.raw (1 <<< (4 : ℤ)) ≠ 0

def Faults.hardware_failure (f : Faults) : Bool :=
  Int.land f.raw (1 <<< (5 : ℤ)) ≠ 0

def Faults.reset_during_en (f : Faults) : Bool :=
  Int.land f.raw (1 <<< (6 : ℤ)) ≠ 0

def Faults.sensor_overflow (f : Faults) : Bool :=
  Int.land f.raw (1 <<< (7 : ℤ)) ≠ 0

def Faults.sensor_out_of_phase (f : Faults) : Bool :=
  Int.land f.raw (1 <<< (8 : ℤ)) ≠ 0

def Faults.hardware_esd_reset (f : Faults) : Bool :=
  Int.land f.raw (1 <<< (9 : ℤ)) ≠ 0

def Faults.remote_loss_of_signal (f : Faults) : Bool :=
  Int.land f.raw (1 <<< (10 : ℤ)) ≠ 0

def Faults.has_any_fault (f : Faults) : Bool :=
  f.raw ≠ 0

/-- `StickyFaults` (src/motor_control.rs lines 60-97).  Note the bit
layout: there is no `hardware_failure` accessor, and every flag after
`reverse_soft_limit` sits one bit lower than in `Faults`. -/
structure StickyFaults where
  raw : ℤ
deriving DecidableEq, Repr

def StickyFaults.under_voltage (f : StickyFaults) : Bool :=
  Int.land f.raw (1 <<< (0 : ℤ)) ≠ 0

def StickyFaults.forward_limit_switch (f : StickyFaults) : Bool :=
  Int.land f.raw (1 <<< (1 : ℤ)) ≠ 0

def StickyFaults.reverse_limit_switch (f : StickyFaults) : Bool :=
  Int.land f.raw (1 <<< (2 : ℤ)) ≠ 0

def StickyFaults.forward_soft_limit (f : StickyFaults) : Bool :=
  Int.land f.raw (1 <<< (3 : ℤ)) ≠ 0

def StickyFaults.reverse_soft_limit (f : StickyFaults) : Bool :=
  Int.land f.raw (1 <<< (4 : ℤ)) ≠ 0

def StickyFaults.reset_during_en (f : StickyFaults) : Bool :=
  Int.land f.raw (1 <<< (5 : ℤ)) ≠ 0

def StickyFaults.sensor_overflow (f : StickyFaults) : Bool :=
  Int.land f.raw (1 <<< (6 : ℤ)) ≠ 0

def StickyFaults.sensor_out_of_phase (f : StickyFaults) : Bool :=
  Int.land f.raw (1 <<< (7 : ℤ)) ≠ 0

def StickyFaults.hardware_esd_reset (f : StickyFaults) : Bool :=
  Int.land f.raw (1 <<< (8 : ℤ)) ≠ 0

def StickyFaults.remote_loss_of_signal (f : StickyFaults) : Bool :=
  Int.land f.raw (1 <<< (9 : ℤ)) ≠ 0

def StickyFaults.has_any_fault (f : StickyFaults) : Bool :=
  f.raw ≠ 0

/-- All named `Faults` accessors, in source order. -/
def faultsAccessors (f : Faults) : List Bool :=
  [f.under_voltage, f.forward_limit_switch, f.reverse_limit_switch,
   f.forward_soft_limit, f.reverse_soft_limit, f.hardware_failure,
   f.reset_during_en, f.sensor_overflow, f.sensor_out_of_phase,
   f.hardware_esd_reset, f.remote_loss_of_signal]

/-- All named `StickyFaults` accessors, in source order. -/
def stickyAccessors (f : StickyFaults) : List Bool :=
  [f.under_voltage, f.forward_limit_switch, f.reverse_limit_switch,
   f.forward_soft_limit, f.reverse_soft_limit, f.reset_during_en,
   f.sensor_overflow, f.sensor_out_of_phase, f.hardware_esd_reset,
   f.remote_loss_of_signal]

/-- The `i32` value whose bit pattern has exactly bit `k` set
(bit 31 is the sign bit, so that pattern is the value `-2^31`). -/
def i32bit (k : ℕ) : ℤ :=
  if k = 31 then -(2 ^ 31) else 2 ^ k

/-- Modelled from the spec: one request crossing the DeviceHandle
boundary from the Talon current-limit configuration surface.  The
authoritative device protocol has distinct peak-limit, peak-duration
and continuous-limit setters; the constructor records which FFI entry
point is invoked with which arguments. -/
inductive TalonConfigCall where
  | peakCurrentLimit (amps : ℤ) (timeoutMs : ℤ)
  | peakCurrentDuration (milliseconds : ℤ) (timeoutMs : ℤ)
  | continuousCurrentLimit (amps : ℤ) (timeoutMs : ℤ)
deriving DecidableEq, Repr

/-- `TalonSRX::config_peak_current_limit` (src/motor_control.rs lines
1281-1283): calls `c_MotController_ConfigPeakCurrentLimit`. -/
def configPeakCurrentLimit (amps : ℤ) (timeoutMs : ℤ) : TalonConfigCall :=
  TalonConfigCall.peakCurrentLimit amps timeoutMs

/-- `TalonSRX::config_peak_current_duration` (src/motor_control.rs
lines 1303-1305): the body calls `c_MotController_ConfigPeakCurrentLimit`
with the `milliseconds` argument, not a duration setter. -/
def configPeakCurrentDuration (milliseconds : ℤ) (timeoutMs : ℤ) : TalonConfigCall :=
  TalonConfigCall.peakCurrentLimit milliseconds timeoutMs

/-- `TalonSRX::config_continuous_current_limit` (src/motor_control.rs
lines 1323-1325). -/
def configContinuousCurrentLimit (amps : ℤ) (timeoutMs : ℤ) : TalonConfigCall :=
  TalonConfigCall.continuousCurrentLimit amps timeoutMs

/-- Modelled from the spec: the error/status value returned by every
request-issuing operation (`ErrorCode` lives outside src/; the spec
only distinguishes success from a propagated error cause). -/
inductive ErrorCode where
  | OK
  | error (code : ℤ)
deriving DecidableEq, Repr

/-- Modelled from the spec: `MotionProfileStatus` (declared in the
`motion` module, outside src/).  Field names and order follow the
out-parameters `get_motion_profile_status` passes to
`c_MotController_GetMotionProfileStatus_2` (src/motor_control.rs lines
809-829).  `output_enable` keeps the raw `c_int` the FFI writes; the
`.into()` conversion is the identity on that value. -/
structure MotionProfileStatus where
  top_buffer_rem : ℤ
  top_buffer_cnt : ℤ
  btm_buffer_cnt : ℤ
  has_underrun : Bool
  is_underrun : Bool
  active_point_valid : Bool
  is_last : Bool
  profile_slot_select_0 : ℤ
  output_enable : ℤ
  time_dur_ms : ℤ
  profile_slot_select_1 : ℤ
deriving DecidableEq, Repr

/-- `Default::default()` for `MotionProfileStatus`: all-zero/false. -/
def mpStatusDefault : MotionProfileStatus :=
  ⟨0, 0, 0, false, false, false, false, 0, 0, 0, 0⟩

/-- Modelled from the spec: the reply of the underlying status query
`c_MotController_GetMotionProfileStatus_2` — a status code plus one
value for every out-parameter the wrapper passes (the FFI writes every
out-parameter; the query is a single atomic snapshot). -/
structure MpStatusReply where
  code : ErrorCode
  top_buffer_rem : ℤ
  top_buffer_cnt : ℤ
  btm_buffer_cnt : ℤ
  has_underrun : Bool
  is_underrun : Bool
  active_point_valid : Bool
  is_last : Bool
  profile_slot_select_0 : ℤ
  output_enable : ℤ
  time_dur_ms : ℤ
  profile_slot_select_1 : ℤ
deriving DecidableEq, Repr

/-- `BaseMotorController::get_motion_profile_status`
(src/motor_control.rs lines 809-829): every field of `status_to_fill`
is overwritten from the device reply, `output_enable` through the
local `c_int` temporary, and the status code is returned. -/
def getMotionProfileStatus (reply : MpStatusReply)
    (_statusToFill : MotionProfileStatus) : MotionProfileStatus × ErrorCode :=
  (⟨reply.top_buffer_rem, reply.top_buffer_cnt, reply.btm_buffer_cnt,
    reply.has_underrun, reply.is_underrun, reply.active_point_valid,
    reply.is_last, reply.profile_slot_select_0, reply.output_enable,
    reply.time_dur_ms, reply.profile_slot_select_1⟩,
   reply.code)

/-- `BaseMotorController::get_new_motion_profile_status`
(src/motor_control.rs lines 832-839): fill a `Default::default()`
status, then `Ok(status)` when the code is `ErrorCode::OK` and
`Err(code)` otherwise. -/
def getNewMotionProfileStatus (reply : MpStatusReply) :
    Except ErrorCode MotionProfileStatus :=
  let r := getMotionProfileStatus reply mpStatusDefault
  match r.2 with
  | ErrorCode.OK => Except.ok r.1
  | code => Except.error code

/-- Modelled from the spec: `TrajectoryPoint` (declared in the
`motion` module, outside src/).  Fields follow the arguments
`push_motion_profile_trajectory` forwards to the FFI
(src/motor_control.rs lines 768-782). -/
structure TrajectoryPoint where
  position : ℚ
  velocity : ℚ
  auxiliary_pos : ℚ
  profile_slot_select_0 : ℤ
  profile_slot_select_1 : ℤ
  is_last_point : Bool
  zero_pos : Bool
  time_dur : ℤ
deriving DecidableEq, Repr

/-- Modelled from the spec: the combined state of the motion-profile
buffers — the unbounded api-level (top) queue held in this layer, and
the count of points in the bounded on-device (bottom) buffer. -/
structure MpBuffers where
  top : List TrajectoryPoint
  btm : ℕ
deriving DecidableEq, Repr

/-- The initial buffer state: both buffers empty. -/
def mpInit : MpBuffers :=
  ⟨[], 0⟩

/-- Modelled from the spec: `push_motion_profile_trajectory` appends
one point to the top buffer; no local capacity check on push. -/
def pushTrajectory (s : MpBuffers) (p : TrajectoryPoint) : MpBuffers :=
  ⟨s.top ++ [p], s.btm⟩

/-- Modelled from the spec: the number of points one
`process_motion_profile_buffer` call moves — as many points as fit
from the top buffer into the bottom buffer of capacity `cap`. -/
def processDrainCount (cap : ℕ) (s : MpBuffers) : ℕ :=
  min s.top.length (cap - s.btm)

/-- Modelled from the spec: `process_motion_profile_buffer` drains
`processDrainCount` points from the top buffer into the bottom one. -/
def processBuffer (cap : ℕ) (s : MpBuffers) : MpBuffers :=
  ⟨s.top.drop (processDrainCount cap s), s.btm + processDrainCount cap s⟩

/-- Modelled from the spec: one event of the buffer protocol — an
application push, an application `process` call, or the firmware
executor consuming `k` points from the bottom buffer between calls. -/
inductive MpEvent where
  | push (p : TrajectoryPoint)
  | process
  | consume (k : ℕ)
deriving DecidableEq, Repr

/-- One protocol step. -/
def mpStep (cap : ℕ) (s : MpBuffers) : MpEvent → MpBuffers
  | MpEvent.push p => pushTrajectory s p
  | MpEvent.process => processBuffer cap s
  | MpEvent.consume k => ⟨s.top, s.btm - k⟩

/-- Run a sequence of protocol events. -/
def mpRun (cap : ℕ) (s : MpBuffers) : List MpEvent → MpBuffers
  | [] => s
  | e :: es => mpRun cap (mpStep cap s e) es

/-- Points drained top → bottom by a single event. -/
def drainedBy (cap : ℕ) (s : MpBuffers) : MpEvent → ℕ
  | MpEvent.process => processDrainCount cap s
  | _ => 0

/-- Total points drained top → bottom over a run. -/
def drainedTotal (cap : ℕ) (s : MpBuffers) : List MpEvent → ℕ
  | [] => 0
  | e :: es => drainedBy cap s e + drainedTotal cap (mpStep cap s e) es

/-- Number of push events in a sequence. -/
def pushCount : List MpEvent → ℕ
  | [] => 0
  | MpEvent.push _ :: es => pushCount es + 1
  | MpEvent.process :: es => pushCount es
  | MpEvent.consume _ :: es => pushCount es

lemma set_follower_inRange (b : ℤ) (d0 : ℚ) (t : DemandType) (d1 : ℚ)
    (h : 0 ≤ d0 ∧ d0 ≤ 62) :
    BaseMotorController.set b ControlMode.Follower d0 t d1 =
      FfiCall.set4 ControlMode.Follower
        ((((i32AsU32 b >>> 16) <<< 8) ||| f64AsU32 d0 : ℕ) : ℚ) d1 t := by
  simp [BaseMotorController.set, h]

lemma set_follower_outRange (b : ℤ) (d0 : ℚ) (t : DemandType) (d1 : ℚ)
    (h : ¬(0 ≤ d0 ∧ d0 ≤ 62)) :
    BaseMotorController.set b ControlMode.Follower d0 t d1 =
      FfiCall.set4 ControlMode.Follower ((f64AsU32 d0 : ℕ) : ℚ) d1 t := by
  simp [BaseMotorController.set, h]

lemma f64AsU32_intCast (c : ℤ) (h0 : 0 ≤ c) (hlt : c < 2 ^ 32) :
    f64AsU32 (c : ℚ) = c.toNat := by
  unfold f64AsU32
  rw [Int.floor_intCast]
  omega

lemma set_follower_pass_int (b : ℤ) (c : ℤ) (t : DemandType) (d1 : ℚ)
    (h62 : 62 < c) (hlt : c < 2 ^ 32) :
    BaseMotorController.set b ControlMode.Follower (c : ℚ) t d1 =
      FfiCall.set4 ControlMode.Follower (c : ℚ) d1 t := by
  have hnot : ¬(0 ≤ (c : ℚ) ∧ (c : ℚ) ≤ 62) := by
    rintro ⟨-, h2⟩
    have : c ≤ 62 := by exact_mod_cast h2
    omega
  rw [set_follower_outRange b _ t d1 hnot, f64AsU32_intCast c (by omega) hlt]
  have h4 : ((c.toNat : ℕ) : ℤ) = c := Int.toNat_of_nonneg (by omega)
  have h5 : ((c.toNat : ℕ) : ℚ) = (c : ℚ) := by exact_mod_cast h4
  rw [h5]

/-- Claim C1, counterexample to the claim as stated: in Follower mode
with out-of-range `demand0 = -1.0`, the encoded primary value sent is
`0`, not `-1` — `demand0` is not passed through unchanged (the Rust
`as u32` cast saturates negative values to zero). -/
theorem follower_passthrough_cex :
    BaseMotorController.set 0x02040000 ControlMode.Follower (-1) DemandType.Neutral 0 =
      FfiCall.set4 ControlMode.Follower 0 0 DemandType.Neutral ∧
    (0 : ℚ) ≠ (-1 : ℚ) := by
  constructor
  · rw [set_follower_outRange 0x02040000 (-1) DemandType.Neutral 0 (by norm_num)]
    norm_num [f64AsU32]
  · norm_num

/-- Claim C1 (amended): for `0.0 ≤ demand0 ≤ 62.0`,
`set(Follower, demand0, ..)` encodes the primary value as
`((caller_base_id as u32 >> 16) << 8) | (demand0 as u32)`, so the
encoded value depends only on the caller's high 16 address bits and
`demand0`, not on the caller's low address bits; otherwise the encoded
primary value is `demand0` converted to `u32` by truncation toward
zero with saturation — which equals `demand0` itself exactly when
`demand0` is an integer representable in `u32` (and differs for
negative or fractional `demand0`). -/
theorem follower_set_encoding (b : ℤ) (d0 : ℚ) (t : DemandType) (d1 : ℚ) :
    (0 ≤ d0 ∧ d0 ≤ 62 →
      BaseMotorController.set b ControlMode.Follower d0 t d1 =
        FfiCall.set4 ControlMode.Follower
          ((((i32AsU32 b >>> 16) <<< 8) ||| f64AsU32 d0 : ℕ) : ℚ) d1 t ∧
      ∀ b2 : ℤ, i32AsU32 b >>> 16 = i32AsU32 b2 >>> 16 →
        BaseMotorController.set b ControlMode.Follower d0 t d1 = BaseMotorController.set b2 ControlMode.Follower d0 t d1) ∧
    (¬(0 ≤ d0 ∧ d0 ≤ 62) →
      BaseMotorController.set b ControlMode.Follower d0 t d1 =
        FfiCall.set4 ControlMode.Follower ((f64AsU32 d0 : ℕ) : ℚ) d1 t) ∧
    (∀ m : ℕ, 62 < (m : ℚ) → m < 2 ^ 32 →
      BaseMotorController.set b ControlMode.Follower (m : ℚ) t d1 =
        FfiCall.set4 ControlMode.Follower (m : ℚ) d1 t) := by
  refine ⟨fun h => ⟨set_follower_inRange b d0 t d1 h, fun b2 hb2 => ?_⟩,
    set_follower_outRange b d0 t d1, fun m h62 hlt => ?_⟩
  · rw [set_follower_inRange b d0 t d1 h, set_follower_inRange b2 d0 t d1 h, hb2]
  · have h1 : (62 : ℤ) < (m : ℤ) := by exact_mod_cast h62
    have h2 : ((m : ℤ)) < 2 ^ 32 := by exact_mod_cast hlt
    have h3 := set_follower_pass_int b (m : ℤ) t d1 h1 h2
    simpa using h3

theorem follower_set_encoding_witness :
    BaseMotorController.set 0x02040003 ControlMode.Follower 5 DemandType.Neutral 0 =
      FfiCall.set4 ControlMode.Follower
        ((((i32AsU32 0x02040003 >>> 16) <<< 8) ||| f64AsU32 5 : ℕ) : ℚ)
        0 DemandType.Neutral :=
  ((follower_set_encoding 0x02040003 5 DemandType.Neutral 0).1 (by norm_num)).1

/-- Claim C2: `follow(A, follower_type)` on follower `B` sends a
Follower-mode command whose composite id is
`((A.base_id >> 16) << 8) | (A.base_id & 0xFF)`, independent of `B`'s
own address (the theorem holds for every `selfBase`); follower type
PercentOutput sends demand type Neutral and AuxOutput1 sends AuxPID.
`A` is a constructed device: base id `device_number | family_tag` with
device number in `[0, 62]` and one of the two family tags. -/
theorem follow_composite_id (dn tag selfBase : ℤ) (ft : FollowerType)
    (h0 : 0 ≤ dn) (h62 : dn ≤ 62)
    (htag : tag = 0x02040000 ∨ tag = 0x01040000) :
    BaseMotorController.follow selfBase (Int.lor dn tag) ft =
      FfiCall.set4 ControlMode.Follower
        ((followerId24 (Int.lor dn tag) : ℤ) : ℚ) 0 (followerDemandType ft) := by
  have hb : 62 < followerId24 (Int.lor dn tag) ∧
      followerId24 (Int.lor dn tag) < 2 ^ 32 := by
    rcases htag with h | h <;> subst h <;> interval_cases dn <;> exact ⟨by decide, by decide⟩
  cases ft
  · exact set_follower_pass_int selfBase _ DemandType.Neutral 0 hb.1 hb.2
  · exact set_follower_pass_int selfBase _ DemandType.AuxPID 0 hb.1 hb.2

theorem follow_composite_id_witness :
    BaseMotorController.follow (victorSPXArbId 7) (Int.lor 3 0x02040000) FollowerType.PercentOutput =
      FfiCall.set4 ControlMode.Follower
        ((followerId24 (Int.lor 3 0x02040000) : ℤ) : ℚ) 0
        (followerDemandType FollowerType.PercentOutput) :=
  follow_composite_id 3 0x02040000 (victorSPXArbId 7) FollowerType.PercentOutput
    (by decide) (by decide) (Or.inl rfl)

/-- Claim C3: for every demand0 `x`, `set(Current, x, _, _)` sends
`1000 * x` as the encoded primary value; the demand1 type and value
are ignored and zero is sent for the secondary demand. -/
theorem current_mode_milliamps (b : ℤ) (x : ℚ) (t : DemandType) (d1 : ℚ) :
    BaseMotorController.set b ControlMode.Current x t d1 =
      FfiCall.setDemand ControlMode.Current (1000 * x) 0 :=
  rfl

/-- Claim C4: `set(Disabled, ..)` sends zero for both demand values
regardless of input, and `neutral_output` performs exactly this
Disabled-mode set. -/
theorem disabled_mode_zero (b : ℤ) (d0 : ℚ) (t : DemandType) (d1 : ℚ) :
    BaseMotorController.set b ControlMode.Disabled d0 t d1 =
      FfiCall.setDemand ControlMode.Disabled 0 0 ∧
    BaseMotorController.neutral_output b = FfiCall.setDemand ControlMode.Disabled 0 0 ∧
    BaseMotorController.neutral_output b = BaseMotorController.set b ControlMode.Disabled 0 DemandType.Neutral 0 :=
  ⟨rfl, rfl, rfl⟩

lemma ldiff_pow_two_sub_one (j n : ℕ) (hj : j < n) :
    Nat.ldiff (2 ^ j) (2 ^ n - 1) = 0 := by
  apply Nat.eq_of_testBit_eq
  intro i
  rw [Nat.testBit_ldiff, Nat.zero_testBit, Nat.testBit_two_pow,
    Nat.testBit_two_pow_sub_one]
  by_cases h : j = i
  · subst h
    simp [hj]
  · simp [h]

lemma fault_mask_bit31 (j : ℕ) (hj : j < 31) :
    (decide (Int.land (i32bit 31) (((2 ^ j : ℕ) : ℤ)) ≠ 0)) = false := by
  have h1 : Int.land (i32bit 31) (((2 ^ j : ℕ) : ℤ)) = 0 := by
    show Int.ofNat (Nat.ldiff (2 ^ j) (2 ^ 31 - 1)) = 0
    rw [ldiff_pow_two_sub_one j 31 hj]
    rfl
  rw [h1]
  rfl

lemma faultsAccessors_bit31 :
    faultsAccessors ⟨i32bit 31⟩ =
      [false, false, false, false, false, false, false, false, false, false,
       false] := by
  show [decide (Int.land (i32bit 31) (((2 ^ 0 : ℕ) : ℤ)) ≠ 0),
        decide (Int.land (i32bit 31) (((2 ^ 1 : ℕ) : ℤ)) ≠ 0),
        decide (Int.land (i32bit 31) (((2 ^ 2 : ℕ) : ℤ)) ≠ 0),
        decide (Int.land (i32bit 31) (((2 ^ 3 : ℕ) : ℤ)) ≠ 0),
        decide (Int.land (i32bit 31) (((2 ^ 4 : ℕ) : ℤ)) ≠ 0),
        decide (Int.land (i32bit 31) (((2 ^ 5 : ℕ) : ℤ)) ≠ 0),
        decide (Int.land (i32bit 31) (((2 ^ 6 : ℕ) : ℤ)) ≠ 0),
        decide (Int.land (i32bit 31) (((2 ^ 7 : ℕ) : ℤ)) ≠ 0),
        decide (Int.land (i32bit 31) (((2 ^ 8 : ℕ) : ℤ)) ≠ 0),
        decide (Int.land (i32bit 31) (((2 ^ 9 : ℕ) : ℤ)) ≠ 0),
        decide (Int.land (i32bit 31) (((2 ^ 10 : ℕ) : ℤ)) ≠ 0)] = _
  simp only [fault_mask_bit31 0 (by omega), fault_mask_bit31 1 (by omega),
    fault_mask_bit31 2 (by omega), fault_mask_bit31 3 (by omega),
    fault_mask_bit31 4 (by omega), fault_mask_bit31 5 (by omega),
    fault_mask_bit31 6 (by omega), fault_mask_bit31 7 (by omega),
    fault_mask_bit31 8 (by omega), fault_mask_bit31 9 (by omega),
    fault_mask_bit31 10 (by omega)]

lemma stickyAccessors_bit31 :
    stickyAccessors ⟨i32bit 31⟩ =
      [false, false, false, false, false, false, false, false, false,
       false] := by
  show [decide (Int.land (i32bit 31) (((2 ^ 0 : ℕ) : ℤ)) ≠ 0),
        decide (Int.land (i32bit 31) (((2 ^ 1 : ℕ) : ℤ)) ≠ 0),
        decide (Int.land (i32bit 31) (((2 ^ 2 : ℕ) : ℤ)) ≠ 0),
        decide (Int.land (i32bit 31) (((2 ^ 3 : ℕ) : ℤ)) ≠ 0),
        decide (Int.land (i32bit 31) (((2 ^ 4 : ℕ) : ℤ)) ≠ 0),
        decide (Int.land (i32bit 31) (((2 ^ 5 : ℕ) : ℤ)) ≠ 0),
        decide (Int.land (i32bit 31) (((2 ^ 6 : ℕ) : ℤ)) ≠ 0),
        decide (Int.land (i32bit 31) (((2 ^ 7 : ℕ) : ℤ)) ≠ 0),
        decide (Int.land (i32bit 31) (((2 ^ 8 : ℕ) : ℤ)) ≠ 0),
        decide (Int.land (i32bit 31) (((2 ^ 9 : ℕ) : ℤ)) ≠ 0)] = _
  simp only [fault_mask_bit31 0 (by omega), fault_mask_bit31 1 (by omega),
    fault_mask_bit31 2 (by omega), fault_mask_bit31 3 (by omega),
    fault_mask_bit31 4 (by omega), fault_mask_bit31 5 (by omega),
    fault_mask_bit31 6 (by omega), fault_mask_bit31 7 (by omega),
    fault_mask_bit31 8 (by omega), fault_mask_bit31 9 (by omega)]

/-- Claim C5, counterexample to the claim as stated: `reset_during_en`
is a flag named in both decoders, yet on the same raw field `32`
(bit 5 set) `Faults` reports it false while `StickyFaults` reports it
true — the two decoders do not read it from the same bit position. -/
theorem fault_bit_positions_cex :
    Faults.reset_during_en ⟨32⟩ = false ∧
    StickyFaults.reset_during_en ⟨32⟩ = true ∧
    Faults.hardware_failure ⟨32⟩ = true := by
  decide

/-- Claim C5 (amended): the five shared flags up through
`reverse_soft_limit` decode from identical bit positions (0-4) in both
types; `hardware_failure` (bit 5) exists only in `Faults`; each of the
five shared flags after it sits one bit position lower in
`StickyFaults` (bits 5-9) than in `Faults` (bits 6-10).  The omission
of `hardware_failure` together with this one-position downward shift
is the only asymmetry between the two decoders' named accessors. -/
theorem fault_bit_positions :
    (∀ x : ℤ,
      Faults.under_voltage ⟨x⟩ = StickyFaults.under_voltage ⟨x⟩ ∧
      Faults.forward_limit_switch ⟨x⟩ = StickyFaults.forward_limit_switch ⟨x⟩ ∧
      Faults.reverse_limit_switch ⟨x⟩ = StickyFaults.reverse_limit_switch ⟨x⟩ ∧
      Faults.forward_soft_limit ⟨x⟩ = StickyFaults.forward_soft_limit ⟨x⟩ ∧
      Faults.reverse_soft_limit ⟨x⟩ = StickyFaults.reverse_soft_limit ⟨x⟩) ∧
    (∀ k : ℕ, k < 32 →
      (Faults.hardware_failure ⟨i32bit k⟩ = decide (k = 5)) ∧
      (Faults.reset_during_en ⟨i32bit k⟩ = decide (k = 6) ∧
        StickyFaults.reset_during_en ⟨i32bit k⟩ = decide (k = 5)) ∧
      (Faults.sensor_overflow ⟨i32bit k⟩ = decide (k = 7) ∧
        StickyFaults.sensor_overflow ⟨i32bit k⟩ = decide (k = 6)) ∧
      (Faults.sensor_out_of_phase ⟨i32bit k⟩ = decide (k = 8) ∧
        StickyFaults.sensor_out_of_phase ⟨i32bit k⟩ = decide (k = 7)) ∧
      (Faults.hardware_esd_reset ⟨i32bit k⟩ = decide (k = 9) ∧
        StickyFaults.hardware_esd_reset ⟨i32bit k⟩ = decide (k = 8)) ∧
      (Faults.remote_loss_of_signal ⟨i32bit k⟩ = decide (k = 10) ∧
        StickyFaults.remote_loss_of_signal ⟨i32bit k⟩ = decide (k = 9))) := by
  constructor
  · intro x
    exact ⟨rfl, rfl, rfl, rfl, rfl⟩
  · intro k hk
    interval_cases k
    all_goals try decide
    exact ⟨fault_mask_bit31 5 (by omega),
      ⟨fault_mask_bit31 6 (by omega), fault_mask_bit31 5 (by omega)⟩,
      ⟨fault_mask_bit31 7 (by omega), fault_mask_bit31 6 (by omega)⟩,
      ⟨fault_mask_bit31 8 (by omega), fault_mask_bit31 7 (by omega)⟩,
      ⟨fault_mask_bit31 9 (by omega), fault_mask_bit31 8 (by omega)⟩,
      fault_mask_bit31 10 (by omega), fault_mask_bit31 9 (by omega)⟩

theorem fault_bit_positions_witness :
    Faults.remote_loss_of_signal ⟨i32bit 10⟩ = decide (10 = 10) ∧
    StickyFaults.remote_loss_of_signal ⟨i32bit 9⟩ = decide (9 = 9) :=
  ⟨(fault_bit_positions.2 10 (by decide)).2.2.2.2.2.1,
   (fault_bit_positions.2 9 (by decide)).2.2.2.2.2.2⟩

/-- Claim C6: fault decoding is total and pure over every 32-bit
input; `has_any_fault` is true exactly when the raw field is nonzero;
on every single-bit input, exactly one named accessor is true when the
bit is mapped (bits 0-10 for `Faults`, 0-9 for `StickyFaults`), and no
named accessor is true on an unmapped bit while `has_any_fault` still
reports true there. -/
theorem fault_decoding_total :
    (∀ x : ℤ,
      (Faults.has_any_fault ⟨x⟩ = true ↔ x ≠ 0) ∧
      (StickyFaults.has_any_fault ⟨x⟩ = true ↔ x ≠ 0)) ∧
    (∀ k : ℕ, k < 32 →
      (k ≤ 10 → (faultsAccessors ⟨i32bit k⟩).count true = 1) ∧
      (10 < k → (faultsAccessors ⟨i32bit k⟩).count true = 0 ∧
        Faults.has_any_fault ⟨i32bit k⟩ = true) ∧
      (k ≤ 9 → (stickyAccessors ⟨i32bit k⟩).count true = 1) ∧
      (9 < k → (stickyAccessors ⟨i32bit k⟩).count true = 0 ∧
        StickyFaults.has_any_fault ⟨i32bit k⟩ = true)) := by
  constructor
  · intro x
    constructor <;>
      simp [Faults.has_any_fault, StickyFaults.has_any_fault]
  · intro k hk
    interval_cases k
    all_goals try decide
    refine ⟨fun h => absurd h (by omega), fun _ => ⟨?_, by decide⟩,
      fun h => absurd h (by omega), fun _ => ⟨?_, by decide⟩⟩
    · rw [faultsAccessors_bit31]
      rfl
    · rw [stickyAccessors_bit31]
      rfl

theorem fault_decoding_total_witness :
    (faultsAccessors ⟨i32bit 12⟩).count true = 0 ∧
    Faults.has_any_fault ⟨i32bit 12⟩ = true :=
  (fault_decoding_total.2 12 (by decide)).2.1 (by decide)

/-- Claim C7: for every device number `n` in `[0, 62]` and both
families, constructing a device yields base address `n | family_tag`,
from which extracting the low device-number bits recovers `n` and
extracting the high family bits recovers the family tag. -/
theorem device_address_roundtrip (n : ℤ) (h0 : 0 ≤ n) (h62 : n ≤ 62) :
    talonSRXArbId n = Int.lor n 0x02040000 ∧
    deviceNumberBits (talonSRXArbId n) = n ∧
    familyBits (talonSRXArbId n) = 0x02040000 ∧
    victorSPXArbId n = Int.lor n 0x01040000 ∧
    deviceNumberBits (victorSPXArbId n) = n ∧
    familyBits (victorSPXArbId n) = 0x01040000 := by
  interval_cases n <;> exact ⟨rfl, by decide, by decide, rfl, by decide, by decide⟩

theorem device_address_roundtrip_witness :
    deviceNumberBits (talonSRXArbId 5) = 5 ∧
    familyBits (victorSPXArbId 5) = 0x01040000 :=
  ⟨(device_address_roundtrip 5 (by decide) (by decide)).2.1,
   (device_address_roundtrip 5 (by decide) (by decide)).2.2.2.2.2⟩

/-- Claim C8: `config_peak_current_duration(milliseconds, timeout_ms)`
issues exactly the same underlying device request as
`config_peak_current_limit(milliseconds, timeout_ms)` — it invokes the
peak current limit setter, not the distinct duration setter the device
protocol provides. -/
theorem peak_current_duration_alias (ms t : ℤ) :
    configPeakCurrentDuration ms t = configPeakCurrentLimit ms t ∧
    configPeakCurrentDuration ms t ≠ TalonConfigCall.peakCurrentDuration ms t := by
  exact ⟨rfl, by simp [configPeakCurrentDuration]⟩

/-- Claim C9: `get_new_motion_profile_status` returns `Ok` with a
fully-populated status (every field taken from the device reply)
exactly when the underlying status query reports success, and
otherwise returns `Err` with the single propagated error code — never
a partially-filled struct. -/
theorem motion_profile_status_result (reply : MpStatusReply) :
    (reply.code = ErrorCode.OK →
      getNewMotionProfileStatus reply =
        Except.ok ⟨reply.top_buffer_rem, reply.top_buffer_cnt,
          reply.btm_buffer_cnt, reply.has_underrun, reply.is_underrun,
          reply.active_point_valid, reply.is_last,
          reply.profile_slot_select_0, reply.output_enable,
          reply.time_dur_ms, reply.profile_slot_select_1⟩) ∧
    (reply.code ≠ ErrorCode.OK →
      getNewMotionProfileStatus reply = Except.error reply.code) := by
  constructor
  · intro h
    simp [getNewMotionProfileStatus, getMotionProfileStatus, h]
  · intro h
    cases hc : reply.code with
    | OK => exact absurd hc h
    | error c =>
        simp [getNewMotionProfileStatus, getMotionProfileStatus, hc]

theorem motion_profile_status_result_witness :
    getNewMotionProfileStatus
      ⟨ErrorCode.error 3, 1, 2, 3, true, false, true, false, 0, 1, 10, 1⟩ =
      Except.error (ErrorCode.error 3) :=
  (motion_profile_status_result
    ⟨ErrorCode.error 3, 1, 2, 3, true, false, true, false, 0, 1, 10, 1⟩).2
    (by decide)

lemma mpStep_btm_le (cap : ℕ) (s : MpBuffers) (e : MpEvent)
    (h : s.btm ≤ cap) : (mpStep cap s e).btm ≤ cap := by
  cases e with
  | push p => exact h
  | process =>
      show s.btm + processDrainCount cap s ≤ cap
      simp only [processDrainCount]
      omega
  | consume k =>
      show s.btm - k ≤ cap
      omega

lemma mpRun_btm_le (cap : ℕ) (es : List MpEvent) :
    ∀ s : MpBuffers, s.btm ≤ cap → (mpRun cap s es).btm ≤ cap := by
  induction es with
  | nil => exact fun s h => h
  | cons e es ih => exact fun s h => ih _ (mpStep_btm_le cap s e h)

lemma mpRun_conserve (cap : ℕ) (es : List MpEvent) :
    ∀ s : MpBuffers,
      (mpRun cap s es).top.length + drainedTotal cap s es =
        s.top.length + pushCount es := by
  induction es with
  | nil => intro s; simp [mpRun, drainedTotal, pushCount]
  | cons e es ih =>
      intro s
      have h := ih (mpStep cap s e)
      cases e with
      | push p =>
          simp only [mpRun, drainedTotal, drainedBy, pushCount, mpStep,
            pushTrajectory] at h ⊢
          simp only [List.length_append, List.length_cons,
            List.length_nil] at h
          omega
      | process =>
          have hn : processDrainCount cap s ≤ s.top.length :=
            Nat.min_le_left _ _
          simp only [mpRun, drainedTotal, drainedBy, pushCount, mpStep,
            processBuffer] at h ⊢
          simp only [List.length_drop] at h
          omega
      | consume k =>
          simp only [mpRun, drainedTotal, drainedBy, pushCount, mpStep] at h ⊢
          omega

lemma pushCount_append (l1 l2 : List MpEvent) :
    pushCount (l1 ++ l2) = pushCount l1 + pushCount l2 := by
  induction l1 with
  | nil => simp [pushCount]
  | cons e l1 ih =>
      cases e with
      | push p =>
          show pushCount (l1 ++ l2) + 1 = pushCount l1 + 1 + pushCount l2
          rw [ih]
          omega
      | process =>
          show pushCount (l1 ++ l2) = pushCount l1 + pushCount l2
          exact ih
      | consume k =>
          show pushCount (l1 ++ l2) = pushCount l1 + pushCount l2
          exact ih

lemma pushCount_map_push (ps : List TrajectoryPoint) :
    pushCount (ps.map MpEvent.push) = ps.length := by
  induction ps with
  | nil => simp [pushCount]
  | cons p ps ih => simp only [List.map, pushCount, ih, List.length_cons]

/-- Claim C10: pushing `N` trajectory points and then processing
(with arbitrary interleaved firmware consumption, and no further
pushes) until the top-level buffer count reaches 0 keeps the bottom
(on-device) buffer count within the firmware capacity at every
intermediate state, and drains exactly `N` points from the top buffer
into the bottom buffer in total. -/
theorem motion_profile_buffer_drain (cap : ℕ) (ps : List TrajectoryPoint)
    (es : List MpEvent) (hnopush : pushCount es = 0)
    (hdone : (mpRun cap mpInit (ps.map MpEvent.push ++ es)).top.length = 0) :
    (∀ i : ℕ,
      (mpRun cap mpInit (List.take i (ps.map MpEvent.push ++ es))).btm ≤ cap) ∧
    drainedTotal cap mpInit (ps.map MpEvent.push ++ es) = ps.length := by
  constructor
  · intro i
    exact mpRun_btm_le cap _ mpInit (Nat.zero_le cap)
  · have h := mpRun_conserve cap (ps.map MpEvent.push ++ es) mpInit
    rw [pushCount_append, pushCount_map_push, hnopush] at h
    have h0 : mpInit.top.length = 0 := rfl
    rw [h0] at h
    omega

/-- A concrete all-zero trajectory point used by the buffer-protocol
witness. -/
def tp0 : TrajectoryPoint :=
  ⟨0, 0, 0, 0, 0, false, false, 0⟩

theorem motion_profile_buffer_drain_witness :
    (mpRun 2 mpInit (List.take 3
        ([tp0, tp0, tp0].map MpEvent.push ++
          [MpEvent.process, MpEvent.consume 2, MpEvent.process,
           MpEvent.consume 1, MpEvent.process]))).btm ≤ 2 ∧
    drainedTotal 2 mpInit
        ([tp0, tp0, tp0].map MpEvent.push ++
          [MpEvent.process, MpEvent.consume 2, MpEvent.process,
           MpEvent.consume 1, MpEvent.process]) = 3 :=
  ⟨(motion_profile_buffer_drain 2 [tp0, tp0, tp0]
      [MpEvent.process, MpEvent.consume 2, MpEvent.process,
       MpEvent.consume 1, MpEvent.process] (by decide) (by decide)).1 3,
   (motion_profile_buffer_drain 2 [tp0, tp0, tp0]
      [MpEvent.process, MpEvent.consume 2, MpEvent.process,
       MpEvent.consume 1, MpEvent.process] (by decide) (by decide)).2⟩
